import Mathlib

/-!
Shallow embedding of `src/assets/site.js`.

The script defines two functions and runs each once at load:

* `setYear` reads `document.getElementById('y')` and, when present, writes
  `new Date().getFullYear()` into its `textContent`.
* `markActiveNav` computes `here = location.pathname.replace(/\/index\.html$/, '/')`
  and, for every anchor matched by `.nav a`, reads its `href` attribute, skips
  falsy values (`null` and the empty string), normalizes the `href` with the same
  regex replacement, and on exact string equality with `here` adds the `active`
  class to the anchor.

The document is modelled by the data these functions touch: the optional text of
the `#y` element, and the ordered list of navigation anchors, each carrying an
optional `href` attribute value and an `active` class flag.  `classList.add` on
a flag already present leaves the class set unchanged, so the flag is a `Bool`
set to `true`.
-/

/-- The characters of the pattern `/index.html` matched by the regular
expression `/\/index\.html$/` in `site.js`. -/
def idxSuffix : List Char := "/index.html".data

/-- `s.replace(/\/index\.html$/, '/')`, the path normalization used by
`markActiveNav` on both `location.pathname` and each `href`: when `s` ends with
the eleven characters `/index.html`, that trailing match is replaced by `/`
(equivalently, the final ten characters `index.html` are dropped and the slash
kept); otherwise `s` is returned unchanged.  The regex is anchored at the end of
the string, so at most one replacement happens. -/
def stripIndex (s : String) : String :=
  if idxSuffix <:+ s.data then String.mk (s.data.take (s.data.length - 10)) else s

/-- A navigation anchor as `markActiveNav` sees it: the value of its `href`
attribute (`none` when `getAttribute('href')` returns `null`) and whether its
class list contains `active`. -/
structure Anchor where
  href : Option String
  active : Bool
deriving DecidableEq

/-- The body of the `forEach` callback in `markActiveNav`:
`const href = a.getAttribute('href'); if(!href) return;` — the falsy test skips
both a missing attribute and an empty-string attribute —
`const norm = href.replace(/\/index\.html$/, '/'); if(norm === here)
a.classList.add('active');`. -/
def markAnchor (here : String) (a : Anchor) : Anchor :=
  match a.href with
  | none => a
  | some href =>
    if href = "" then a
    else if stripIndex href = here then { a with active := true } else a

/-- `markActiveNav`: normalize `location.pathname` (the `pathname` argument)
into `here`, then process every `.nav a` anchor in document order. -/
def markActiveNav (pathname : String) (anchors : List Anchor) : List Anchor :=
  let here := stripIndex pathname
  anchors.map (markAnchor here)

/-- The document state `setYear` touches: `yText` is the `textContent` of the
element with id `y`, or `none` when `document.getElementById('y')` returns
`null`. -/
structure Doc where
  yText : Option String
deriving DecidableEq

/-- `setYear`: `const y = document.getElementById('y'); if(y) y.textContent =
new Date().getFullYear();`.  The year number is rendered in decimal by the
JavaScript number-to-string coercion, modelled by `toString`. -/
def setYear (year : Nat) (d : Doc) : Doc :=
  match d.yText with
  | none => d
  | some _ => { yText := some (toString year) }

/-! ### Helper lemmas -/

theorem string_length_append (a b : String) : (a ++ b).length = a.length + b.length :=
  String.length_append a b

theorem stripIndex_of_data_eq (t : List Char) (s : String) (h : s.data = t ++ idxSuffix) :
    stripIndex s = String.mk (t ++ ['/']) := by
  have hsuf : idxSuffix <:+ s.data := ⟨t, h.symm⟩
  unfold stripIndex
  rw [if_pos hsuf, h]
  have hlen : (t ++ idxSuffix).length = t.length + 11 := by
    simp [idxSuffix]
  rw [hlen]
  have h10 : t.length + 11 - 10 = t.length + 1 := by omega
  rw [h10, List.take_append_eq_append_take, List.take_of_length_le (by omega)]
  have htake : idxSuffix.take (t.length + 1 - t.length) = ['/'] := by
    have : t.length + 1 - t.length = 1 := by omega
    rw [this]
    decide
  rw [htake]

theorem not_suffix_of_ends_slash (t : List Char) : ¬ idxSuffix <:+ (t ++ ['/']) := by
  rintro ⟨u, hu⟩
  have h1 : (u ++ idxSuffix).getLast? = some 'l' := by
    have hsplit : idxSuffix = "/index.htm".data ++ ['l'] := by decide
    rw [hsplit, ← List.append_assoc, List.getLast?_concat]
  have h2 : (t ++ ['/']).getLast? = some '/' := List.getLast?_concat t
  rw [hu] at h1
  rw [h1] at h2
  have : ('l' : Char) = '/' := Option.some.inj h2
  exact absurd this (by decide)

theorem markAnchor_of_href_none (here : String) (a : Anchor) (h : a.href = none) :
    markAnchor here a = a := by
  obtain ⟨hr, act⟩ := a
  obtain rfl : hr = none := h
  rfl

theorem markAnchor_of_href_empty (here : String) (a : Anchor) (h : a.href = some "") :
    markAnchor here a = a := by
  obtain ⟨hr, act⟩ := a
  obtain rfl : hr = some "" := h
  simp [markAnchor]

theorem markAnchor_of_href_some (here h : String) (a : Anchor) (hh : a.href = some h)
    (hne : h ≠ "") :
    markAnchor here a = { a with active := if stripIndex h = here then true else a.active } := by
  obtain ⟨hr, act⟩ := a
  obtain rfl : hr = some h := hh
  simp only [markAnchor, if_neg hne]
  by_cases hm : stripIndex h = here
  · simp [hm]
  · simp [hm]

theorem markAnchor_idem (here : String) (a : Anchor) :
    markAnchor here (markAnchor here a) = markAnchor here a := by
  obtain ⟨hr, act⟩ := a
  cases hr with
  | none => rfl
  | some s =>
    by_cases hs : s = ""
    · subst hs
      simp [markAnchor]
    · by_cases hm : stripIndex s = here
      · simp [markAnchor, hs, hm]
      · simp [markAnchor, hs, hm]

theorem markAnchor_active_of_active (here : String) (a : Anchor) (h : a.active = true) :
    (markAnchor here a).active = true := by
  obtain ⟨hr, act⟩ := a
  cases hr with
  | none => exact h
  | some s =>
    by_cases hs : s = ""
    · simpa [markAnchor, hs] using h
    · by_cases hm : stripIndex s = here
      · simp [markAnchor, hs, hm]
      · simpa [markAnchor, hs, hm] using h

theorem toDigitsCore_length_eq (b : Nat) (hb : 2 ≤ b) :
    ∀ (fuel n : Nat) (ds : List Char), n < fuel →
      (Nat.toDigitsCore b fuel n ds).length = Nat.log b n + 1 + ds.length := by
  intro fuel
  induction fuel with
  | zero => intro n ds h; exact absurd h (Nat.not_lt_zero n)
  | succ f ih =>
    intro n ds h
    rw [Nat.toDigitsCore]
    by_cases h0 : n / b = 0
    · have hnb : n < b := (Nat.div_eq_zero_iff (by omega)).mp h0
      have hlog : Nat.log b n = 0 := Nat.log_eq_zero_iff.mpr (Or.inl hnb)
      simp [h0, hlog]
      omega
    · have hbn : b ≤ n := by
        by_contra hc
        exact h0 (Nat.div_eq_of_lt (by omega))
      have hpos : 0 < n := by omega
      have hlt : n / b < f := by
        have := Nat.div_lt_self hpos (by omega : 1 < b)
        omega
      rw [if_neg h0, ih (n / b) (Nat.digitChar (n % b) :: ds) hlt]
      have hdiv : Nat.log b (n / b) = Nat.log b n - 1 := Nat.log_div_base b n
      have hlpos : 0 < Nat.log b n := Nat.log_pos (by omega) hbn
      simp only [List.length_cons]
      omega

theorem repr_length_eq (n : Nat) : (Nat.repr n).length = Nat.log 10 n + 1 := by
  have h : (Nat.toDigitsCore 10 (n + 1) n []).length = Nat.log 10 n + 1 + ([] : List Char).length :=
    toDigitsCore_length_eq 10 (by omega) (n + 1) n [] (Nat.lt_succ_self n)
  simpa [Nat.repr, Nat.toDigits, List.asString, String.length] using h

theorem repr_length_four (y : Nat) (h1 : 1000 ≤ y) (h2 : y ≤ 9999) :
    (Nat.repr y).length = 4 := by
  rw [repr_length_eq]
  have hlog : Nat.log 10 y = 3 := by
    have e3 : (10 : Nat) ^ 3 = 1000 := by norm_num
    have e4 : (10 : Nat) ^ 4 = 10000 := by norm_num
    exact Nat.log_eq_of_pow_le_of_lt_pow (by omega) (by omega)
  omega

/-! ### Claim theorems -/

/-- C1, as stated, fails at an explicit input: with current path `""` and an
anchor whose `href` attribute is present but equal to `""`, the normalized link
target equals the normalized current path, yet `markActiveNav` does not apply
the active flag, because the JavaScript falsy test `if(!href) return;` skips an
empty-string attribute as well as a missing one. -/
theorem markActiveNav_empty_href_counterexample :
    stripIndex "" = stripIndex "" ∧
    markActiveNav "" [⟨some "", false⟩] = [⟨some "", false⟩] :=
  ⟨rfl, by decide⟩

/-- C1 (amended to anchors whose `href` attribute is present and non-empty):
after `markActiveNav` runs, such an anchor carries the active flag exactly when
its normalized link target is string-equal to the normalized current path, and
when the two normalized strings differ the flag is not applied (the anchor's
prior flag state is left untouched); the comparison is exact equality of the
normalized strings, never a weaker containment test. -/
theorem markActiveNav_marks_exactly_matches (pathname h : String) (pre post : List Anchor)
    (a : Anchor) (hh : a.href = some h) (hne : h ≠ "") :
    markActiveNav pathname (pre ++ a :: post) =
      markActiveNav pathname pre
        ++ { a with active := if stripIndex h = stripIndex pathname then true else a.active }
        :: markActiveNav pathname post := by
  simp only [markActiveNav, List.map_append, List.map_cons,
    markAnchor_of_href_some (stripIndex pathname) h a hh hne]

/-- Witness for C1's amended theorem at current path `/` and link target
`/blog/`: the normalized strings differ, so the flag stays `false`. -/
theorem markActiveNav_marks_exactly_matches_witness :
    markActiveNav "/" ([] ++ (⟨some "/blog/", false⟩ : Anchor) :: []) =
      markActiveNav "/" []
        ++ { (⟨some "/blog/", false⟩ : Anchor) with
              active := if stripIndex "/blog/" = stripIndex "/" then true else false }
        :: markActiveNav "/" [] :=
  markActiveNav_marks_exactly_matches "/" "/blog/" [] [] ⟨some "/blog/", false⟩ rfl (by decide)

/-- C2: normalization is applied to both sides of the comparison.  With current
path `/blog/index.html` an anchor targeting `/blog/` is marked active, and with
current path `/about/` an anchor targeting `/about/index.html` is marked
active. -/
theorem markActiveNav_normalizes_both_sides :
    markActiveNav "/blog/index.html" [⟨some "/blog/", false⟩] = [⟨some "/blog/", true⟩] ∧
    markActiveNav "/about/" [⟨some "/about/index.html", false⟩] =
      [⟨some "/about/index.html", true⟩] := by
  constructor
  · decide
  · decide

/-- C3: the normalization `stripIndex` is idempotent — applying it to an
already-normalized path returns that path unchanged, for every string. -/
theorem stripIndex_idempotent (p : String) : stripIndex (stripIndex p) = stripIndex p := by
  by_cases h : idxSuffix <:+ p.data
  · obtain ⟨t, ht⟩ := h
    have h1 : stripIndex p = String.mk (t ++ ['/']) := stripIndex_of_data_eq t p ht.symm
    rw [h1]
    unfold stripIndex
    rw [if_neg (not_suffix_of_ends_slash t)]
  · unfold stripIndex
    rw [if_neg h, if_neg h]

/-- C4: when the `#y` element exists, `setYear` sets its text to the decimal
rendering of the current year, and for any current-era year (between 1000 and
9999) that rendering has exactly four digits. -/
theorem setYear_writes_four_digit_year (year : Nat) (d : Doc) (t : String)
    (h : d.yText = some t) (h1 : 1000 ≤ year) (h2 : year ≤ 9999) :
    (setYear year d).yText = some (toString year) ∧ (toString year).length = 4 := by
  constructor
  · obtain ⟨yt⟩ := d
    obtain rfl : yt = some t := h
    rfl
  · exact repr_length_four year h1 h2

/-- Witness for C4 at year 2026 with the element present. -/
theorem setYear_writes_four_digit_year_witness :
    (setYear 2026 ⟨some "2025"⟩).yText = some (toString 2026) ∧ (toString 2026).length = 4 :=
  setYear_writes_four_digit_year 2026 ⟨some "2025"⟩ "2025" rfl (by decide) (by decide)

/-- C5: when no `#y` element exists, `setYear` performs no mutation at all: the
document state is returned unchanged and no error is raised (the function is
total). -/
theorem setYear_absent_noop (year : Nat) (d : Doc) (h : d.yText = none) :
    setYear year d = d := by
  obtain ⟨yt⟩ := d
  obtain rfl : yt = none := h
  rfl

/-- Witness for C5 at year 2026 with the element absent. -/
theorem setYear_absent_noop_witness : setYear 2026 ⟨none⟩ = ⟨none⟩ :=
  setYear_absent_noop 2026 ⟨none⟩ rfl

/-- C6: an anchor with no `href` attribute is skipped: wherever it sits in the
anchor list, `markActiveNav` leaves it exactly as it was, and the anchors
before and after it are still processed normally. -/
theorem markActiveNav_skips_absent_href (pathname : String) (pre post : List Anchor)
    (a : Anchor) (h : a.href = none) :
    markActiveNav pathname (pre ++ a :: post) =
      markActiveNav pathname pre ++ a :: markActiveNav pathname post := by
  simp only [markActiveNav, List.map_append, List.map_cons,
    markAnchor_of_href_none (stripIndex pathname) a h]

/-- Witness for C6: an `href`-less anchor between two linked anchors. -/
theorem markActiveNav_skips_absent_href_witness :
    markActiveNav "/" ([⟨some "/a/", false⟩] ++ (⟨none, false⟩ : Anchor) :: [⟨some "/", false⟩]) =
      markActiveNav "/" [⟨some "/a/", false⟩]
        ++ (⟨none, false⟩ : Anchor) :: markActiveNav "/" [⟨some "/", false⟩] :=
  markActiveNav_skips_absent_href "/" [⟨some "/a/", false⟩] [⟨some "/", false⟩] ⟨none, false⟩ rfl

/-- C7: `markActiveNav` is idempotent on an unchanged page — running it twice
with the same current path yields exactly the anchor list produced by running
it once, since re-adding the class to an already-flagged anchor changes
nothing. -/
theorem markActiveNav_idempotent (pathname : String) (anchors : List Anchor) :
    markActiveNav pathname (markActiveNav pathname anchors) =
      markActiveNav pathname anchors := by
  simp only [markActiveNav, List.map_map]
  exact List.map_congr_left fun a _ => markAnchor_idem (stripIndex pathname) a

/-- C8: `markActiveNav` never removes an active flag: an anchor that is active
before the run maps to an anchor that is still active after the run, whether or
not its link target matches the current path. -/
theorem markActiveNav_preserves_flags (pathname : String) (pre post : List Anchor)
    (a : Anchor) (h : a.active = true) :
    markActiveNav pathname (pre ++ a :: post) =
      markActiveNav pathname pre
        ++ markAnchor (stripIndex pathname) a :: markActiveNav pathname post
    ∧ (markAnchor (stripIndex pathname) a).active = true := by
  constructor
  · simp only [markActiveNav, List.map_append, List.map_cons]
  · exact markAnchor_active_of_active (stripIndex pathname) a h

/-- Witness for C8: an already-active anchor whose target `/other/` does not
match the current path `/` stays active. -/
theorem markActiveNav_preserves_flags_witness :
    markActiveNav "/" ([] ++ (⟨some "/other/", true⟩ : Anchor) :: []) =
      markActiveNav "/" []
        ++ markAnchor (stripIndex "/") ⟨some "/other/", true⟩ :: markActiveNav "/" []
    ∧ (markAnchor (stripIndex "/") (⟨some "/other/", true⟩ : Anchor)).active = true :=
  markActiveNav_preserves_flags "/" [] [] ⟨some "/other/", true⟩ rfl

/-- C9: an anchor whose `href` attribute is present but empty is treated
exactly like one with no attribute: `markActiveNav` leaves it unchanged (so it
is never marked active), wherever it sits in the list, even when the normalized
current path would equal the normalized empty string. -/
theorem markActiveNav_skips_empty_href (pathname : String) (pre post : List Anchor)
    (a : Anchor) (h : a.href = some "") :
    markActiveNav pathname (pre ++ a :: post) =
      markActiveNav pathname pre ++ a :: markActiveNav pathname post := by
  simp only [markActiveNav, List.map_append, List.map_cons,
    markAnchor_of_href_empty (stripIndex pathname) a h]

/-- Witness for C9 at the degenerate current path `""`, whose normal form
equals the normal form of the empty link target. -/
theorem markActiveNav_skips_empty_href_witness :
    markActiveNav "" ([] ++ (⟨some "", false⟩ : Anchor) :: []) =
      markActiveNav "" [] ++ (⟨some "", false⟩ : Anchor) :: markActiveNav "" [] :=
  markActiveNav_skips_empty_href "" [] [] ⟨some "", false⟩ rfl

/-- C10: normalization changes only strings that literally end in
`/index.html`: every string that is not of the form `t ++ "/index.html"` is
returned unchanged — in particular the bare relative target `index.html` and
the path `/myindex.html`, whose final segment merely ends in `index.html`, are
left as they are. -/
theorem stripIndex_unchanged_without_suffix :
    (∀ p : String, (∀ t : String, p ≠ t ++ "/index.html") → stripIndex p = p)
    ∧ stripIndex "index.html" = "index.html"
    ∧ stripIndex "/myindex.html" = "/myindex.html" := by
  refine ⟨?_, by decide, by decide⟩
  intro p hp
  unfold stripIndex
  rw [if_neg]
  rintro ⟨t, ht⟩
  refine hp ⟨t⟩ ?_
  cases p with
  | mk pd =>
    cases ht
    rfl

/-- Witness for C10's universally quantified part at the path `/about/`. -/
theorem stripIndex_unchanged_without_suffix_witness :
    stripIndex "/about/" = "/about/" :=
  stripIndex_unchanged_without_suffix.1 "/about/" (by
    intro t hcontra
    have hl : ("/about/" : String).length = t.length + ("/index.html" : String).length := by
      rw [hcontra, string_length_append]
    have h7 : ("/about/" : String).length = 7 := rfl
    have h11 : ("/index.html" : String).length = 11 := rfl
    omega)
